import Mathlib

/-!
Shallow embedding of the generation-and-polling workflow of the VideoGenAi
repository (src/app/page.tsx: addLog, generateVideo, pollVideoStatus,
resetGenerator).

Modelling choices:
* React component state (the `videoStatus` record and the `logs` list) is
  threaded explicitly as `AppState`; every `setVideoStatus` call is recorded
  chronologically in a `statesSet` trace.
* The two network interactions (`fetch("/api/generate")` and
  `fetch("/api/status/...")` followed by `.json()`) are modelled as
  environment parameters: one `GenFetch` outcome for the single submission
  call, and a stream `Nat → FetchOutcome` giving the outcome of the status
  query made on each polling attempt.  A `throws` outcome models the fetch
  or the JSON parse raising (transport failure / malformed body); `success`
  carries the HTTP `ok` flag and the parsed JSON fields the code reads.
* JavaScript string truthiness (`||`, `!x`): both `undefined` and `""` are
  falsy; `truthy`, `jsOr` and `jsOrD` reproduce this on `Option String`.
* `await new Promise(setTimeout, 3000)` is real time and has no effect on
  the values computed; only the fact that each iteration performs exactly
  one query is modelled (field `queries`).  `LogEntry`'s `id` and
  `timestamp` fields are wall-clock values and are omitted; the numeric
  `speed: 1.0` payload field is a floating-point constant never read by the
  workflow logic and is likewise omitted.
-/

namespace VideoGenAi

/-- Log severity, from the LogEntry interface in page.tsx. -/
inductive LogType
  | info
  | success
  | error
  | warning
deriving Repr, DecidableEq

/-- A log entry: type and message (id and timestamp are clock values, omitted). -/
structure LogEntry where
  type : LogType
  message : String
deriving Repr, DecidableEq

/-- The status tag of the VideoStatus interface in page.tsx. -/
inductive Status
  | idle
  | generating
  | processing
  | completed
  | failed
deriving Repr, DecidableEq

/-- The VideoStatus record of page.tsx: optional fields are JS `undefined` when
absent; `progress` is the displayed percentage. -/
structure VideoStatus where
  status : Status
  videoId : Option String
  videoUrl : Option String
  progress : Nat
  error : Option String
deriving Repr, DecidableEq

/-- The component state threaded through the workflow: the current
`videoStatus` and the log list (most recent first, as in the code). -/
structure AppState where
  videoStatus : VideoStatus
  logs : List LogEntry
deriving Repr, DecidableEq

/-- The initial component state from the two useState calls. -/
def initialState : AppState :=
  { videoStatus := ⟨Status.idle, none, none, 0, none⟩, logs := [] }

/-- addLog from page.tsx: prepends a new entry to the log list. -/
def addLog (t : LogType) (m : String) (logs : List LogEntry) : List LogEntry :=
  ⟨t, m⟩ :: logs

/-- JS truthiness of an optional string: `undefined` and `""` are falsy. -/
def truthy : Option String → Bool
  | none => false
  | some s => s ≠ ""

/-- JS `a || b` on two optional strings. -/
def jsOr (a b : Option String) : Option String :=
  if truthy a then a else b

/-- JS `a || d` where `d` is a (non-empty) string default. -/
def jsOrD (a : Option String) (d : String) : String :=
  match a with
  | none => d
  | some s => if s = "" then d else s

/-- The `error` object of a response body (`{ message }`), as read through
`?.message`. -/
structure ErrObj where
  message : Option String
deriving Repr, DecidableEq

/-- The nested `output` object of a status response (`output.video_url`). -/
structure StatusOutput where
  video_url : Option String
deriving Repr, DecidableEq

/-- The `data` object of a status response, restricted to the fields
pollVideoStatus reads: `status`, `video_url`, `output.video_url`,
`error.message`. -/
structure StatusData where
  status : Option String
  video_url : Option String
  output : Option StatusOutput
  error : Option ErrObj
deriving Repr, DecidableEq

/-- A parsed status response together with the HTTP `ok` flag: the code reads
`statusRes.ok`, `statusData.data` and the top-level `statusData.error.message`. -/
structure StatusResponse where
  ok : Bool
  data : Option StatusData
  error : Option ErrObj
deriving Repr, DecidableEq

/-- Outcome of one `fetch` + `.json()` of the status endpoint: either the pair
throws (transport failure or malformed body; the payload is the thrown
`Error`'s message, `none` when the thrown value is not an `Error`), or a
parsed response. -/
inductive FetchOutcome
  | throws (m : Option String)
  | success (r : StatusResponse)
deriving Repr, DecidableEq

/-- The `data?.status` field of a status response. -/
def dataStatus (r : StatusResponse) : Option String :=
  r.data.bind StatusData.status

/-- The result URL a completed response yields:
`statusData.data?.video_url || statusData.data?.output?.video_url` (primary
field, else the nested fallback field). -/
def extractedUrl (r : StatusResponse) : Option String :=
  jsOr (r.data.bind StatusData.video_url)
    ((r.data.bind StatusData.output).bind StatusOutput.video_url)

/-- The nested remote failure reason: `statusData.data?.error?.message`. -/
def remoteFailureReason (r : StatusResponse) : Option String :=
  (r.data.bind StatusData.error).bind ErrObj.message

/-- The failed VideoStatus record set by every catch branch and by the timeout
path: `{ status: "failed", progress: 0, error: errorMessage }`. -/
def failedStatus (em : String) : VideoStatus :=
  ⟨Status.failed, none, none, 0, some em⟩

/-- The VideoStatus record set when polling times out. -/
def timedOutStatus : VideoStatus :=
  failedStatus "Video generation timed out"

/-- maxAttempts from pollVideoStatus. -/
def maxAttempts : Nat := 100

/-- The fixed polling interval in milliseconds (setTimeout argument). -/
def pollIntervalMs : Nat := 3000

/-- Result of one iteration of the polling loop body, before state updates:
either the loop halts with a final VideoStatus and the log entry emitted with
it, or it continues with the computed progress percent and the raw status
label logged. -/
inductive StepResult
  | halt (fin : VideoStatus) (lg : LogEntry)
  | loop (percent : Nat) (label : String)
deriving Repr, DecidableEq

/-- One iteration of the pollVideoStatus loop body (page.tsx lines 113-153),
given the outcome of this attempt's status query, the current attempt counter
and the job id.  Faithful to the source: a non-ok response throws
`statusData.error?.message || "Failed to check status"`; `completed` extracts
`statusData.data?.video_url || statusData.data?.output?.video_url` and throws
`"Video URL not found in response"` when that is falsy; `failed` throws
`statusData.data?.error?.message || "Video generation failed"`; any other
status continues with progress `min(30 + attempts*2, 90)` and the label
`status || "processing"`.  All throws are caught by the iteration's catch,
which sets `{ status: "failed", progress: 0, error }` and logs the message. -/
def pollStep (out : FetchOutcome) (attempts : Nat) (videoId : String) : StepResult :=
  match out with
  | FetchOutcome.throws m =>
      let em := m.getD "Status check failed"
      StepResult.halt (failedStatus em) ⟨LogType.error, em⟩
  | FetchOutcome.success r =>
      if r.ok = false then
        let em := jsOrD (r.error.bind ErrObj.message) "Failed to check status"
        StepResult.halt (failedStatus em) ⟨LogType.error, em⟩
      else
        if dataStatus r = some "completed" then
          let videoUrl := extractedUrl r
          if truthy videoUrl then
            StepResult.halt ⟨Status.completed, some videoId, videoUrl, 100, none⟩
              ⟨LogType.success, "Video generation completed successfully!"⟩
          else
            StepResult.halt (failedStatus "Video URL not found in response")
              ⟨LogType.error, "Video URL not found in response"⟩
        else if dataStatus r = some "failed" then
          let em := jsOrD (remoteFailureReason r) "Video generation failed"
          StepResult.halt (failedStatus em) ⟨LogType.error, em⟩
        else
          StepResult.loop (min (30 + attempts * 2) 90) (jsOrD (dataStatus r) "processing")

/-- Whether an attempt's query outcome sends the loop around again: the
response parsed, was HTTP-ok, and reported neither `completed` nor `failed`. -/
def stepLoops : FetchOutcome → Bool
  | FetchOutcome.throws _ => false
  | FetchOutcome.success r =>
      r.ok && !(dataStatus r == some "completed") && !(dataStatus r == some "failed")

/-- The raw status label a continuing iteration reports:
`status || "processing"`. -/
def stepLabel : FetchOutcome → String
  | FetchOutcome.throws _ => "processing"
  | FetchOutcome.success r => jsOrD (dataStatus r) "processing"

/-- Observable outcome of a polling run: the final component state, the
chronological list of VideoStatus values assigned by setVideoStatus during the
run, the number of status queries issued, and the progress-callback trace
(attempt counter, displayed percent, raw status label) — one entry per
"still processing" observation, mirroring the setVideoStatus progress update
and its log. -/
structure PollOutcome where
  state : AppState
  statesSet : List VideoStatus
  queries : Nat
  progressEvents : List (Nat × Nat × String)
deriving Repr, DecidableEq

/-- The polling loop of pollVideoStatus (page.tsx lines 108-158), recursing on
the remaining-attempt budget `fuel` with the loop counter `attempts` (the
entry point keeps `attempts + fuel = maxAttempts`, so `fuel = 0` is exactly
the `attempts < maxAttempts` exit).  Each iteration logs the attempt, issues
one query, and either halts with the step's final state or updates only the
`progress` field (`setVideoStatus(prev => ({ ...prev, progress }))`), logs the
status label, waits, and continues. -/
def pollFrom (resp : Nat → FetchOutcome) (videoId : String) :
    Nat → Nat → AppState → PollOutcome
  | 0, _, s =>
      { state := { videoStatus := timedOutStatus,
                   logs := addLog LogType.error
                     "Video generation timed out after maximum attempts" s.logs },
        statesSet := [timedOutStatus], queries := 0, progressEvents := [] }
  | fuel + 1, attempts, s =>
      let logs0 := addLog LogType.info
        (s!"Checking video status... (Attempt {attempts + 1}/{maxAttempts})") s.logs
      match pollStep (resp attempts) attempts videoId with
      | StepResult.halt fin lg =>
          { state := { videoStatus := fin, logs := addLog lg.type lg.message logs0 },
            statesSet := [fin], queries := 1, progressEvents := [] }
      | StepResult.loop percent label =>
          let st := { s.videoStatus with progress := percent }
          let logs1 := addLog LogType.info (s!"Status: {label}...") logs0
          let rest := pollFrom resp videoId fuel (attempts + 1) { videoStatus := st, logs := logs1 }
          { state := rest.state,
            statesSet := st :: rest.statesSet,
            queries := 1 + rest.queries,
            progressEvents := (attempts, percent, label) :: rest.progressEvents }

/-- pollVideoStatus: the loop started with `attempts = 0` and the full
100-attempt budget. -/
def pollVideoStatus (resp : Nat → FetchOutcome) (videoId : String) (s : AppState) :
    PollOutcome :=
  pollFrom resp videoId maxAttempts 0 s

/-- The `character` object of the generation payload. -/
structure CharacterSpec where
  type : String
  avatar_id : String
  avatar_style : String
deriving Repr, DecidableEq

/-- The `voice` object of the generation payload (the numeric `speed: 1.0` is
a floating-point constant never read by the workflow and is omitted). -/
structure VoiceSpec where
  type : String
  input_text : String
  voice_id : String
deriving Repr, DecidableEq

/-- The `background` object of the generation payload. -/
structure BackgroundSpec where
  type : String
  value : String
deriving Repr, DecidableEq

/-- One element of `video_inputs`. -/
structure VideoInput where
  character : CharacterSpec
  voice : VoiceSpec
  background : BackgroundSpec
deriving Repr, DecidableEq

/-- The `dimension` object of the generation payload. -/
structure Dimension where
  width : Nat
  height : Nat
deriving Repr, DecidableEq

/-- The generation request payload built by generateVideo. -/
structure GenerationRequest where
  video_inputs : List VideoInput
  dimension : Dimension
deriving Repr, DecidableEq

/-- The payload literal of page.tsx lines 61-79, as a function of the prompt. -/
def mkPayload (prompt : String) : GenerationRequest :=
  { video_inputs := [
      { character := { type := "avatar", avatar_id := "Abigail_sitting_sofa_front",
                       avatar_style := "normal" },
        voice := { type := "text", input_text := prompt,
                   voice_id := "119caed25533477ba63822d5d1552d25" },
        background := { type := "color", value := "#FFFFFF" } }],
    dimension := { width := 720, height := 720 } }

/-- The `data` object of a generation response (`data?.video_id`). -/
structure GenData where
  video_id : Option String
deriving Repr, DecidableEq

/-- A parsed generation response with the HTTP `ok` flag: the code reads
`genRes.ok`, `genData.data?.video_id` and `genData.error?.message`. -/
structure GenResponse where
  ok : Bool
  data : Option GenData
  error : Option ErrObj
deriving Repr, DecidableEq

/-- Outcome of the `fetch("/api/generate")` + `.json()` pair: throws (with the
thrown `Error`'s message, or `none` for a non-`Error` value) or a parsed
response. -/
inductive GenFetch
  | throws (m : Option String)
  | success (r : GenResponse)
deriving Repr, DecidableEq

/-- Observable outcome of one generateVideo run: the final component state,
the chronological trace of VideoStatus values assigned, the submitted payload
(`none` when the prompt was rejected locally and no network call was made),
and the polling run's query count and progress-callback trace. -/
structure GenOutcome where
  state : AppState
  statesSet : List VideoStatus
  submitted : Option GenerationRequest
  queries : Nat
  progressEvents : List (Nat × Nat × String)
deriving Repr, DecidableEq

/-- Embedding of JS String.prototype.trim as used by `prompt.trim()`: strip
whitespace from both ends, written structurally on the character list so that
it evaluates by kernel reduction. -/
def jsTrim (s : String) : String :=
  ⟨((s.data.dropWhile Char.isWhitespace).reverse.dropWhile Char.isWhitespace).reverse⟩

/-- generateVideo (page.tsx lines 47-106): reject an all-whitespace prompt or
one longer than 1500 characters with only a log entry; otherwise set
`{ status: "generating", progress: 10 }`, build the payload, submit it, and on
`ok` with a truthy `data.video_id` set
`{ status: "processing", progress: 30, videoId }` and hand over to
pollVideoStatus.  A submission throw or a non-ok / id-less response is caught,
setting `{ status: "failed", progress: 0, error }`. -/
def generateVideo (prompt : String) (genFetch : GenFetch)
    (resp : Nat → FetchOutcome) (s : AppState) : GenOutcome :=
  if jsTrim prompt = "" then
    { state := { s with logs := addLog LogType.error "Please enter a prompt" s.logs },
      statesSet := [], submitted := none, queries := 0, progressEvents := [] }
  else if 1500 < prompt.length then
    { state := { s with
        logs := addLog LogType.error "Prompt must be less than 1500 characters" s.logs },
      statesSet := [], submitted := none, queries := 0, progressEvents := [] }
  else
    let st1 : VideoStatus := ⟨Status.generating, none, none, 10, none⟩
    let logs1 := addLog LogType.info "Starting video generation..." s.logs
    let payload := mkPayload prompt
    let logs2 := addLog LogType.info "Sending request to HeyGen API..." logs1
    match genFetch with
    | GenFetch.throws m =>
        let em := m.getD "Unknown error occurred"
        { state := { videoStatus := failedStatus em,
                     logs := addLog LogType.error (s!"Generation failed: {em}") logs2 },
          statesSet := [st1, failedStatus em], submitted := some payload,
          queries := 0, progressEvents := [] }
    | GenFetch.success r =>
        if !r.ok || !truthy (r.data.bind GenData.video_id) then
          let em := jsOrD (r.error.bind ErrObj.message) "Failed to generate video"
          { state := { videoStatus := failedStatus em,
                       logs := addLog LogType.error (s!"Generation failed: {em}") logs2 },
            statesSet := [st1, failedStatus em], submitted := some payload,
            queries := 0, progressEvents := [] }
        else
          let vid := (r.data.bind GenData.video_id).getD ""
          let st2 : VideoStatus := ⟨Status.processing, some vid, none, 30, none⟩
          let logs3 := addLog LogType.success (s!"Video generation started! ID: {vid}") logs2
          let p := pollVideoStatus resp vid { videoStatus := st2, logs := logs3 }
          { state := p.state, statesSet := st1 :: st2 :: p.statesSet,
            submitted := some payload, queries := p.queries,
            progressEvents := p.progressEvents }

/-- resetGenerator (page.tsx lines 183-189): set
`{ status: "idle", progress: 0 }` and clear the logs, unconditionally. -/
def resetGenerator (_s : AppState) : AppState :=
  { videoStatus := ⟨Status.idle, none, none, 0, none⟩, logs := [] }

/-- Concrete status response reporting a non-terminal state label. -/
def procResp (label : String) : FetchOutcome :=
  FetchOutcome.success
    { ok := true,
      data := some { status := some label, video_url := none, output := none, error := none },
      error := none }

/-- Concrete status response: completed, with the primary result-URL field. -/
def complResp (url : String) : FetchOutcome :=
  FetchOutcome.success
    { ok := true,
      data := some { status := some "completed", video_url := some url, output := none,
                     error := none },
      error := none }

/-- Concrete status response: completed, primary field absent, only the nested
fallback `output.video_url` present. -/
def fallbackResp (url : String) : FetchOutcome :=
  FetchOutcome.success
    { ok := true,
      data := some { status := some "completed", video_url := none,
                     output := some { video_url := some url }, error := none },
      error := none }

/-- Concrete status response: remote failure with the given nested message. -/
def failResp (m : Option String) : FetchOutcome :=
  FetchOutcome.success
    { ok := true,
      data := some { status := some "failed", video_url := none, output := none,
                     error := some { message := m } },
      error := none }

/-- Concrete status stream: "processing" five times, then completed with the
given result URL. -/
def seq5 (url : String) : Nat → FetchOutcome :=
  fun n => if n < 5 then procResp "processing" else complResp url

/-- Component state right after a successful submission of job "vid1". -/
def afterSubmit : AppState :=
  { videoStatus := ⟨Status.processing, some "vid1", none, 30, none⟩, logs := [] }

/-- Component state left over from a finished earlier attempt. -/
def prevState : AppState :=
  { videoStatus := ⟨Status.completed, some "oldvid", some "http://old.example/v.mp4",
      100, none⟩,
    logs := [⟨LogType.success, "Video generation completed successfully!"⟩] }

/-- Concrete full run: valid prompt, successful submission yielding job "vid1",
then the first status query reports remote failure "boom". -/
def failedPollRun : GenOutcome :=
  generateVideo "hello"
    (GenFetch.success { ok := true, data := some { video_id := some "vid1" }, error := none })
    (fun _ => failResp (some "boom")) initialState

/-- One step of the amended progress relation: progress does not decrease,
except that entering the failed state forces it to 0. -/
def progressStep (a b : VideoStatus) : Prop :=
  a.progress ≤ b.progress ∨ (b.status = Status.failed ∧ b.progress = 0)

/-- The amended job-handle invariant: videoId is present exactly in the
processing and completed states. -/
def handleInv (v : VideoStatus) : Prop :=
  v.videoId.isSome = true ↔ (v.status = Status.processing ∨ v.status = Status.completed)

/-- A string has length zero exactly when it is empty. -/
theorem length_eq_zero_iff_empty (t : String) : t.length = 0 ↔ t = "" := by
  cases t with
  | mk data =>
      cases data with
      | nil => simp
      | cons c cs => simp [String.length, String.ext_iff]

/-- Inversion of a continuing poll step: the percent is the interpolation
formula, the label is the reported status (defaulting to "processing"), and
the outcome was a retryable one. -/
theorem pollStep_loop_inv {out : FetchOutcome} {a : Nat} {v : String} {p : Nat} {l : String}
    (h : pollStep out a v = StepResult.loop p l) :
    p = min (30 + a * 2) 90 ∧ l = stepLabel out ∧ stepLoops out = true := by
  cases out with
  | throws m => simp [pollStep] at h
  | success r =>
      by_cases hok : r.ok = false
      · simp [pollStep, hok] at h
      · have hok' : r.ok = true := by revert hok; cases r.ok <;> simp
        by_cases hc : dataStatus r = some "completed"
        · by_cases hu : truthy (extractedUrl r) = true
          · simp [pollStep, hok, hc, hu] at h
          · simp [pollStep, hok, hc, hu] at h
        · by_cases hfd : dataStatus r = some "failed"
          · simp [pollStep, hok, hc, hfd] at h
          · simp [pollStep, hok, hc, hfd] at h
            exact ⟨h.1.symm, h.2.symm, by simp [stepLoops, hok', hc, hfd]⟩

/-- Inversion of a halting poll step: the final status record is either a
failure record (progress 0, no handle, no URL, some error message) or the
completed record (progress 100, the job handle, the extracted URL, no error). -/
theorem pollStep_halt_shape {out : FetchOutcome} {a : Nat} {v : String}
    {fin : VideoStatus} {lg : LogEntry}
    (h : pollStep out a v = StepResult.halt fin lg) :
    (∃ em, fin = failedStatus em) ∨
    (fin.status = Status.completed ∧ fin.progress = 100 ∧ fin.videoId = some v) := by
  cases out with
  | throws m =>
      simp [pollStep] at h
      exact Or.inl ⟨m.getD "Status check failed", h.1.symm⟩
  | success r =>
      by_cases hok : r.ok = false
      · simp [pollStep, hok] at h
        exact Or.inl ⟨_, h.1.symm⟩
      · by_cases hc : dataStatus r = some "completed"
        · by_cases hu : truthy (extractedUrl r) = true
          · simp [pollStep, hok, hc, hu] at h
            exact Or.inr (by rw [← h.1]; exact ⟨rfl, rfl, rfl⟩)
          · simp [pollStep, hok, hc, hu] at h
            exact Or.inl ⟨_, h.1.symm⟩
        · by_cases hfd : dataStatus r = some "failed"
          · simp [pollStep, hok, hc, hfd] at h
            exact Or.inl ⟨_, h.1.symm⟩
          · simp [pollStep, hok, hc, hfd] at h

/-- A retryable outcome makes the step loop with the interpolated percent and
the reported label. -/
theorem pollStep_of_loops {out : FetchOutcome} (a : Nat) (v : String)
    (h : stepLoops out = true) :
    pollStep out a v = StepResult.loop (min (30 + a * 2) 90) (stepLabel out) := by
  cases out with
  | throws m => simp [stepLoops] at h
  | success r =>
      simp only [stepLoops, Bool.and_eq_true, Bool.not_eq_true', beq_eq_false_iff_ne] at h
      obtain ⟨⟨hok, hc⟩, hfd⟩ := h
      simp [pollStep, stepLabel, hok, hc, hfd]

/-- A halting iteration yields exactly one query and the step's final status. -/
theorem pollFrom_halt (resp : Nat → FetchOutcome) (vid : String) (fuel attempts : Nat)
    (s : AppState) (fin : VideoStatus) (lg : LogEntry) (hf : 0 < fuel)
    (h : pollStep (resp attempts) attempts vid = StepResult.halt fin lg) :
    (pollFrom resp vid fuel attempts s).queries = 1 ∧
    (pollFrom resp vid fuel attempts s).state.videoStatus = fin ∧
    (pollFrom resp vid fuel attempts s).statesSet = [fin] := by
  cases fuel with
  | zero => exact absurd hf (by simp)
  | succ n => simp [pollFrom, h]

/-- Every progress-callback invocation recorded by the loop carries the
percent `min (30 + attempt * 2) 90`. -/
theorem pollFrom_events_percent (resp : Nat → FetchOutcome) (vid : String) :
    ∀ (fuel attempts : Nat) (s : AppState) (e : Nat × Nat × String),
      e ∈ (pollFrom resp vid fuel attempts s).progressEvents →
      e.2.1 = min (30 + e.1 * 2) 90 := by
  intro fuel
  induction fuel with
  | zero => intro attempts s e he; simp [pollFrom] at he
  | succ n ih =>
      intro attempts s e he
      cases hstep : pollStep (resp attempts) attempts vid with
      | halt fin lg => simp [pollFrom, hstep] at he
      | loop p l =>
          simp only [pollFrom, hstep] at he
          rw [List.mem_cons] at he
          rcases he with rfl | he
          · obtain ⟨hp, _, _⟩ := pollStep_loop_inv hstep
            simpa using hp
          · exact ih (attempts + 1) _ e he

/-- When every queried attempt is retryable, the loop spends its entire
budget, one query per unit of fuel, and ends in the timed-out failure state. -/
theorem pollFrom_timeout_general (resp : Nat → FetchOutcome) (vid : String) :
    ∀ (fuel attempts : Nat) (s : AppState),
      (∀ n, attempts ≤ n → n < attempts + fuel → stepLoops (resp n) = true) →
      (pollFrom resp vid fuel attempts s).queries = fuel ∧
      (pollFrom resp vid fuel attempts s).state.videoStatus = timedOutStatus := by
  intro fuel
  induction fuel with
  | zero => intro attempts s _; simp [pollFrom]
  | succ n ih =>
      intro attempts s h
      have hl : stepLoops (resp attempts) = true := h attempts le_rfl (by omega)
      have hstep := pollStep_of_loops attempts vid hl
      simp only [pollFrom, hstep]
      refine ⟨?_, ?_⟩
      · rw [(ih (attempts + 1) _ (fun m hm1 hm2 => h m (by omega) (by omega))).1]
        omega
      · exact (ih (attempts + 1) _ (fun m hm1 hm2 => h m (by omega) (by omega))).2

/-- Polling only ever prepends log entries: the entry state's log list is a
suffix of the final one. -/
theorem pollFrom_logs_extend (resp : Nat → FetchOutcome) (vid : String) :
    ∀ (fuel attempts : Nat) (s : AppState),
      s.logs <:+ (pollFrom resp vid fuel attempts s).state.logs := by
  intro fuel
  induction fuel with
  | zero =>
      intro attempts s
      simp only [pollFrom]
      exact List.suffix_cons _ _
  | succ n ih =>
      intro attempts s
      cases hstep : pollStep (resp attempts) attempts vid with
      | halt fin lg =>
          simp only [pollFrom, hstep]
          exact (List.suffix_cons _ _).trans (List.suffix_cons _ _)
      | loop p l =>
          simp only [pollFrom, hstep]
          refine List.IsSuffix.trans ?_ (ih (attempts + 1) _)
          exact (List.suffix_cons _ _).trans (List.suffix_cons _ _)

/-- The chain of states set by the loop: progress never decreases except on
entering the failed state, and stays within [0, 100]; requires the entry
progress to be below the current interpolation value. -/
theorem pollFrom_chain (resp : Nat → FetchOutcome) (vid : String) :
    ∀ (fuel attempts : Nat) (s : AppState),
      s.videoStatus.progress ≤ min (30 + attempts * 2) 90 →
      List.Chain' progressStep (s.videoStatus :: (pollFrom resp vid fuel attempts s).statesSet) ∧
      ∀ v ∈ (pollFrom resp vid fuel attempts s).statesSet, v.progress ≤ 100 := by
  intro fuel
  induction fuel with
  | zero =>
      intro attempts s hs
      refine ⟨?_, ?_⟩
      · simp [pollFrom, List.chain'_cons, progressStep, timedOutStatus, failedStatus]
      · intro v hv
        simp [pollFrom] at hv
        subst hv
        simp [timedOutStatus, failedStatus]
  | succ n ih =>
      intro attempts s hs
      have hs90 : s.videoStatus.progress ≤ 90 := hs.trans (min_le_right _ _)
      have hmono : min (30 + attempts * 2) 90 ≤ min (30 + (attempts + 1) * 2) 90 :=
        min_le_min (by omega) le_rfl
      cases hstep : pollStep (resp attempts) attempts vid with
      | halt fin lg =>
          have hsh := pollStep_halt_shape hstep
          refine ⟨?_, ?_⟩
          · simp only [pollFrom, hstep]
            rw [List.chain'_cons]
            refine ⟨?_, List.chain'_singleton _⟩
            rcases hsh with ⟨em, rfl⟩ | ⟨_, h100, _⟩
            · exact Or.inr ⟨rfl, rfl⟩
            · exact Or.inl (by rw [h100]; exact hs90.trans (by omega))
          · intro v hv
            simp only [pollFrom, hstep] at hv
            rw [List.mem_singleton] at hv
            subst hv
            rcases hsh with ⟨em, rfl⟩ | ⟨_, h100, _⟩
            · simp [failedStatus]
            · rw [h100]
      | loop p l =>
          obtain ⟨hp, _, _⟩ := pollStep_loop_inv hstep
          subst hp
          have hrec := ih (attempts + 1)
            ⟨⟨s.videoStatus.status, s.videoStatus.videoId, s.videoStatus.videoUrl,
               min (30 + attempts * 2) 90, s.videoStatus.error⟩,
             addLog LogType.info (s!"Status: {l}...")
               (addLog LogType.info
                 (s!"Checking video status... (Attempt {attempts + 1}/{maxAttempts})")
                 s.logs)⟩
            (by simp)
          refine ⟨?_, ?_⟩
          · simp only [pollFrom, hstep]
            rw [List.chain'_cons]
            exact ⟨Or.inl (by simpa using hs), hrec.1⟩
          · intro v hv
            simp only [pollFrom, hstep] at hv
            rw [List.mem_cons] at hv
            rcases hv with rfl | hv
            · simp
            · exact hrec.2 v hv

/-- The job-handle invariant is preserved by every state the loop sets, given
it holds on entry. -/
theorem pollFrom_handle (resp : Nat → FetchOutcome) (vid : String) :
    ∀ (fuel attempts : Nat) (s : AppState),
      handleInv s.videoStatus →
      ∀ v ∈ (pollFrom resp vid fuel attempts s).statesSet, handleInv v := by
  intro fuel
  induction fuel with
  | zero =>
      intro attempts s _ v hv
      simp [pollFrom] at hv
      subst hv
      simp [handleInv, timedOutStatus, failedStatus]
  | succ n ih =>
      intro attempts s hs v hv
      cases hstep : pollStep (resp attempts) attempts vid with
      | halt fin lg =>
          simp only [pollFrom, hstep] at hv
          rw [List.mem_singleton] at hv
          subst hv
          rcases pollStep_halt_shape hstep with ⟨em, rfl⟩ | ⟨hst, _, hid⟩
          · simp [handleInv, failedStatus]
          · simp [handleInv, hst, hid]
      | loop p l =>
          simp only [pollFrom, hstep] at hv
          rw [List.mem_cons] at hv
          rcases hv with rfl | hv
          · simpa [handleInv] using hs
          · exact ih (attempts + 1) _ (by simpa [handleInv] using hs) v hv

/-- pollVideoStatus only ever prepends log entries. -/
theorem pollVideoStatus_logs_extend (resp : Nat → FetchOutcome) (vid : String)
    (s : AppState) : s.logs <:+ (pollVideoStatus resp vid s).state.logs :=
  pollFrom_logs_extend resp vid maxAttempts 0 s

/-- The progress chain over a full pollVideoStatus run, entered at progress at
most 30. -/
theorem pollVideoStatus_chain (resp : Nat → FetchOutcome) (vid : String)
    (s : AppState) (hs : s.videoStatus.progress ≤ 30) :
    List.Chain' progressStep (s.videoStatus :: (pollVideoStatus resp vid s).statesSet) ∧
    ∀ v ∈ (pollVideoStatus resp vid s).statesSet, v.progress ≤ 100 :=
  pollFrom_chain resp vid maxAttempts 0 s (by simpa using hs)

/-- The job-handle invariant over a full pollVideoStatus run. -/
theorem pollVideoStatus_handle (resp : Nat → FetchOutcome) (vid : String)
    (s : AppState) (hs : handleInv s.videoStatus) :
    ∀ v ∈ (pollVideoStatus resp vid s).statesSet, handleInv v :=
  pollFrom_handle resp vid maxAttempts 0 s hs

/-- The progress chain over a pollVideoStatus run, with the entry state given
by components. -/
theorem pollVideoStatus_chain_entry (resp : Nat → FetchOutcome) (vid : String)
    (st : VideoStatus) (logs : List LogEntry) (hs : st.progress ≤ 30) :
    List.Chain' progressStep (st :: (pollVideoStatus resp vid ⟨st, logs⟩).statesSet) ∧
    ∀ v ∈ (pollVideoStatus resp vid ⟨st, logs⟩).statesSet, v.progress ≤ 100 :=
  pollFrom_chain resp vid maxAttempts 0 ⟨st, logs⟩ (by simpa using hs)

/-- The job-handle invariant over a pollVideoStatus run, with the entry state
given by components. -/
theorem pollVideoStatus_handle_entry (resp : Nat → FetchOutcome) (vid : String)
    (st : VideoStatus) (logs : List LogEntry) (hs : handleInv st) :
    ∀ v ∈ (pollVideoStatus resp vid ⟨st, logs⟩).statesSet, handleInv v :=
  pollFrom_handle resp vid maxAttempts 0 ⟨st, logs⟩ hs

/-- C1: on every polling run the displayed progress reported on attempt `a` is
`min (30 + a * 2) 90`, saturating at 90; and for the concrete status sequence
that reports "processing" five times and then "completed" with a result URL,
the progress callback is invoked exactly five times with the percents 30, 32,
34, 36, 38 in that order, after which the run ends in the completed state with
progress forced to 100 and the extracted URL. -/
theorem poll_progress_interpolation :
    (∀ (resp : Nat → FetchOutcome) (vid : String) (fuel attempts : Nat) (s : AppState)
        (e : Nat × Nat × String),
        e ∈ (pollFrom resp vid fuel attempts s).progressEvents →
        e.2.1 = min (30 + e.1 * 2) 90) ∧
    (pollVideoStatus (seq5 "http://u.example/v.mp4") "vid1" afterSubmit).progressEvents =
      [(0, 30, "processing"), (1, 32, "processing"), (2, 34, "processing"),
       (3, 36, "processing"), (4, 38, "processing")] ∧
    (pollVideoStatus (seq5 "http://u.example/v.mp4") "vid1" afterSubmit).state.videoStatus =
      ⟨Status.completed, some "vid1", some "http://u.example/v.mp4", 100, none⟩ := by
  refine ⟨pollFrom_events_percent, by decide, by decide⟩

/-- Witness instantiating the universally quantified progress formula of C1 at
the first recorded event of a concrete run. -/
theorem poll_progress_interpolation_witness :
    ((0, 30, "processing") : Nat × Nat × String).2.1 =
      min (30 + ((0, 30, "processing") : Nat × Nat × String).1 * 2) 90 :=
  poll_progress_interpolation.1 (seq5 "http://u.example/v.mp4") "vid1" maxAttempts 0
    afterSubmit (0, 30, "processing") (by decide)

/-- C4: when no status query within the 100-attempt budget reports a terminal
state and none errors, poll performs exactly 100 queries and then fails with
the timeout message. -/
theorem poll_timeout_after_max_attempts (resp : Nat → FetchOutcome) (vid : String)
    (s : AppState) (h : ∀ n, n < maxAttempts → stepLoops (resp n) = true) :
    (pollVideoStatus resp vid s).queries = maxAttempts ∧
    (pollVideoStatus resp vid s).state.videoStatus = timedOutStatus :=
  pollFrom_timeout_general resp vid maxAttempts 0 s (fun n _ hn2 => h n (by omega))

/-- Witness for C4: a stream that always reports a non-terminal state. -/
theorem poll_timeout_after_max_attempts_witness :
    (pollVideoStatus (fun _ => procResp "waiting") "vid1" afterSubmit).queries = maxAttempts ∧
    (pollVideoStatus (fun _ => procResp "waiting") "vid1" afterSubmit).state.videoStatus =
      timedOutStatus :=
  poll_timeout_after_max_attempts (fun _ => procResp "waiting") "vid1" afterSubmit
    (fun _ _ => rfl)

/-- C6: a status query reporting the remote state "failed" terminates the poll
at that observation, with the remote-supplied reason when present and a
generic message otherwise, and no further status query is performed. -/
theorem poll_remote_failure_terminal (resp : Nat → FetchOutcome) (vid : String)
    (fuel attempts : Nat) (s : AppState) (r : StatusResponse)
    (hf : 0 < fuel) (hr : resp attempts = FetchOutcome.success r)
    (hok : r.ok = true) (hst : dataStatus r = some "failed") :
    (pollFrom resp vid fuel attempts s).queries = 1 ∧
    (pollFrom resp vid fuel attempts s).state.videoStatus =
      failedStatus (jsOrD (remoteFailureReason r) "Video generation failed") := by
  have hstep : pollStep (resp attempts) attempts vid =
      StepResult.halt
        (failedStatus (jsOrD (remoteFailureReason r) "Video generation failed"))
        ⟨LogType.error, jsOrD (remoteFailureReason r) "Video generation failed"⟩ := by
    rw [hr]
    simp [pollStep, hok, hst]
  have h := pollFrom_halt resp vid fuel attempts s _ _ hf hstep
  exact ⟨h.1, h.2.1⟩

/-- Witness for C6: the remote reports failed with message "synthesis error";
the poll stops after one query carrying exactly that reason. -/
theorem poll_remote_failure_terminal_witness :
    (pollFrom (fun _ => failResp (some "synthesis error")) "vid1" maxAttempts 0
      afterSubmit).queries = 1 ∧
    (pollFrom (fun _ => failResp (some "synthesis error")) "vid1" maxAttempts 0
      afterSubmit).state.videoStatus = failedStatus "synthesis error" := by
  have h := poll_remote_failure_terminal (fun _ => failResp (some "synthesis error")) "vid1"
    maxAttempts 0 afterSubmit
    { ok := true,
      data := some { status := some "failed", video_url := none, output := none,
                     error := some { message := some "synthesis error" } },
      error := none }
    (by decide) rfl rfl rfl
  exact ⟨h.1, by rw [h.2]; decide⟩

/-- C7: a completed status query extracts the result URL from the primary
field, falling back to the nested field, and succeeds when the extraction is
truthy; when both fields are absent the poll fails with the missing-URL
message instead of succeeding. Either way exactly one query is performed. -/
theorem poll_completed_url_extraction (resp : Nat → FetchOutcome) (vid : String)
    (fuel attempts : Nat) (s : AppState) (r : StatusResponse)
    (hf : 0 < fuel) (hr : resp attempts = FetchOutcome.success r)
    (hok : r.ok = true) (hst : dataStatus r = some "completed") :
    (pollFrom resp vid fuel attempts s).queries = 1 ∧
    (truthy (extractedUrl r) = true →
      (pollFrom resp vid fuel attempts s).state.videoStatus =
        ⟨Status.completed, some vid, extractedUrl r, 100, none⟩) ∧
    (truthy (extractedUrl r) = false →
      (pollFrom resp vid fuel attempts s).state.videoStatus =
        failedStatus "Video URL not found in response") := by
  by_cases hu : truthy (extractedUrl r) = true
  · have hstep : pollStep (resp attempts) attempts vid =
        StepResult.halt ⟨Status.completed, some vid, extractedUrl r, 100, none⟩
          ⟨LogType.success, "Video generation completed successfully!"⟩ := by
      rw [hr]
      simp [pollStep, hok, hst, hu]
    have h := pollFrom_halt resp vid fuel attempts s _ _ hf hstep
    exact ⟨h.1, fun _ => h.2.1, fun hfalse => by rw [hu] at hfalse; cases hfalse⟩
  · have hu' : truthy (extractedUrl r) = false := by
      revert hu
      cases truthy (extractedUrl r) <;> simp
    have hstep : pollStep (resp attempts) attempts vid =
        StepResult.halt (failedStatus "Video URL not found in response")
          ⟨LogType.error, "Video URL not found in response"⟩ := by
      rw [hr]
      simp [pollStep, hok, hst, hu']
    have h := pollFrom_halt resp vid fuel attempts s _ _ hf hstep
    exact ⟨h.1, fun htrue => absurd htrue hu, fun _ => h.2.1⟩

/-- Witness for C7: a completed response missing the primary field but
carrying the nested fallback URL still succeeds, using the fallback. -/
theorem poll_completed_url_extraction_witness :
    (pollFrom (fun _ => fallbackResp "http://f.example/v.mp4") "vid1" maxAttempts 0
      afterSubmit).queries = 1 ∧
    (pollFrom (fun _ => fallbackResp "http://f.example/v.mp4") "vid1" maxAttempts 0
      afterSubmit).state.videoStatus =
      ⟨Status.completed, some "vid1", some "http://f.example/v.mp4", 100, none⟩ := by
  have h := poll_completed_url_extraction (fun _ => fallbackResp "http://f.example/v.mp4")
    "vid1" maxAttempts 0 afterSubmit
    { ok := true,
      data := some { status := some "completed", video_url := none,
                     output := some { video_url := some "http://f.example/v.mp4" },
                     error := none },
      error := none }
    (by decide) rfl rfl rfl
  refine ⟨h.1, ?_⟩
  rw [h.2.1 (by decide)]
  decide

/-- C8: a transport-level throw or a non-success HTTP response terminates the
poll at that query with the check-failure message — the failed check is never
retried — and more than one query can only occur when the first outcome was a
retryable "still processing" observation. -/
theorem poll_check_failed_not_retried (resp : Nat → FetchOutcome) (vid : String)
    (fuel attempts : Nat) (s : AppState) :
    (∀ m, 0 < fuel → resp attempts = FetchOutcome.throws m →
      (pollFrom resp vid fuel attempts s).queries = 1 ∧
      (pollFrom resp vid fuel attempts s).state.videoStatus =
        failedStatus (m.getD "Status check failed")) ∧
    (∀ r, 0 < fuel → resp attempts = FetchOutcome.success r → r.ok = false →
      (pollFrom resp vid fuel attempts s).queries = 1 ∧
      (pollFrom resp vid fuel attempts s).state.videoStatus =
        failedStatus (jsOrD (r.error.bind ErrObj.message) "Failed to check status")) ∧
    (1 < (pollFrom resp vid fuel attempts s).queries → stepLoops (resp attempts) = true) := by
  refine ⟨?_, ?_, ?_⟩
  · intro m hf hr
    have hstep : pollStep (resp attempts) attempts vid =
        StepResult.halt (failedStatus (m.getD "Status check failed"))
          ⟨LogType.error, m.getD "Status check failed"⟩ := by
      rw [hr]
      rfl
    have h := pollFrom_halt resp vid fuel attempts s _ _ hf hstep
    exact ⟨h.1, h.2.1⟩
  · intro r hf hr hok
    have hstep : pollStep (resp attempts) attempts vid =
        StepResult.halt
          (failedStatus (jsOrD (r.error.bind ErrObj.message) "Failed to check status"))
          ⟨LogType.error, jsOrD (r.error.bind ErrObj.message) "Failed to check status"⟩ := by
      rw [hr]
      simp [pollStep, hok]
    have h := pollFrom_halt resp vid fuel attempts s _ _ hf hstep
    exact ⟨h.1, h.2.1⟩
  · intro hq
    cases fuel with
    | zero => simp [pollFrom] at hq
    | succ n =>
        cases hstep : pollStep (resp attempts) attempts vid with
        | halt fin lg =>
            have h1 := (pollFrom_halt resp vid (n + 1) attempts s fin lg (by omega) hstep).1
            omega
        | loop p l => exact (pollStep_loop_inv hstep).2.2

/-- Witness for C8: a transport failure on the first query yields one query
and the check-failure state carrying the thrown message. -/
theorem poll_check_failed_not_retried_witness :
    (pollFrom (fun _ => FetchOutcome.throws (some "network unreachable")) "vid1"
      maxAttempts 0 afterSubmit).queries = 1 ∧
    (pollFrom (fun _ => FetchOutcome.throws (some "network unreachable")) "vid1"
      maxAttempts 0 afterSubmit).state.videoStatus =
      failedStatus "network unreachable" := by
  have h := (poll_check_failed_not_retried
      (fun _ => FetchOutcome.throws (some "network unreachable")) "vid1"
      maxAttempts 0 afterSubmit).1 (some "network unreachable") (by decide) rfl
  exact ⟨h.1, h.2⟩

/-- C9: resetting the workflow from any state yields the idle status with
progress 0, no job handle, no result URL, no error, and an empty log list,
unconditionally. -/
theorem reset_unconditional (s : AppState) :
    resetGenerator s =
      { videoStatus := ⟨Status.idle, none, none, 0, none⟩, logs := [] } := rfl

/-- C5: submission is rejected locally, with no network call, exactly when the
trimmed prompt is empty or the prompt exceeds 1500 characters; every other
prompt is submitted to the remote service as the constructed payload. -/
theorem submit_local_validation (prompt : String) (genFetch : GenFetch)
    (resp : Nat → FetchOutcome) (s : AppState) :
    ((generateVideo prompt genFetch resp s).submitted = none ↔
      ((jsTrim prompt).length = 0 ∨ 1500 < prompt.length)) ∧
    ((generateVideo prompt genFetch resp s).submitted = none ∨
      (generateVideo prompt genFetch resp s).submitted = some (mkPayload prompt)) := by
  rw [length_eq_zero_iff_empty]
  by_cases h1 : jsTrim prompt = ""
  · simp [generateVideo, h1]
  · by_cases h2 : 1500 < prompt.length
    · simp [generateVideo, h1, h2]
    · cases genFetch with
      | throws m => simp [generateVideo, h1, h2]
      | success r =>
          by_cases h3 : (!r.ok || !truthy (r.data.bind GenData.video_id)) = true
          · simp [generateVideo, h1, h2, h3]
          · simp [generateVideo, h1, h2, h3]

/-- C10: a valid prompt makes generateVideo replace the whole status record
with the generating record — progress 10, no job handle, no result URL, no
error — regardless of the previous state, while the log list is only
prepended to: the previous entries survive as a suffix of the final log list. -/
theorem generate_replaces_status_keeps_logs (prompt : String) (genFetch : GenFetch)
    (resp : Nat → FetchOutcome) (s : AppState)
    (h1 : ¬ jsTrim prompt = "") (h2 : prompt.length ≤ 1500) :
    (generateVideo prompt genFetch resp s).statesSet.head? =
      some ⟨Status.generating, none, none, 10, none⟩ ∧
    s.logs <:+ (generateVideo prompt genFetch resp s).state.logs := by
  have h2' : ¬ 1500 < prompt.length := by omega
  cases genFetch with
  | throws m =>
      refine ⟨by simp [generateVideo, h1, h2'], ?_⟩
      simp only [generateVideo, if_neg h1, if_neg h2', addLog]
      exact (List.suffix_cons _ _).trans
        ((List.suffix_cons _ _).trans (List.suffix_cons _ _))
  | success r =>
      by_cases h3 : (!r.ok || !truthy (r.data.bind GenData.video_id)) = true
      · refine ⟨by simp [generateVideo, h1, h2', h3], ?_⟩
        simp only [generateVideo, if_neg h1, if_neg h2', h3, if_pos, addLog]
        exact (List.suffix_cons _ _).trans
          ((List.suffix_cons _ _).trans (List.suffix_cons _ _))
      · refine ⟨by simp [generateVideo, h1, h2', h3], ?_⟩
        simp only [generateVideo, if_neg h1, if_neg h2', h3, addLog]
        refine List.IsSuffix.trans ?_ (pollVideoStatus_logs_extend resp _ _)
        exact (List.suffix_cons _ _).trans
          ((List.suffix_cons _ _).trans (List.suffix_cons _ _))

/-- Witness for C10: generating over a finished earlier attempt discards its
handle, URL and error in a single replacement and keeps its log entries. -/
theorem generate_replaces_status_keeps_logs_witness :
    (generateVideo "hello" (GenFetch.throws (some "network down"))
      (fun _ => procResp "waiting") prevState).statesSet.head? =
      some ⟨Status.generating, none, none, 10, none⟩ ∧
    prevState.logs <:+ (generateVideo "hello" (GenFetch.throws (some "network down"))
      (fun _ => procResp "waiting") prevState).state.logs :=
  generate_replaces_status_keeps_logs "hello" (GenFetch.throws (some "network down"))
    (fun _ => procResp "waiting") prevState (by decide) (by decide)

/-- C2 as stated fails on the code: in the concrete run where submission
succeeds and the first status query reports a remote failure, the assigned
progress sequence is 10, 30, 0 — the final failure update decreases progress
without any user reset. -/
theorem progress_monotone_counterexample :
    ¬ List.Chain' (fun a b => a.progress ≤ b.progress) failedPollRun.statesSet := by
  intro hmono
  have hs : failedPollRun.statesSet =
      [⟨Status.generating, none, none, 10, none⟩,
       ⟨Status.processing, some "vid1", none, 30, none⟩,
       ⟨Status.failed, none, none, 0, some "boom"⟩] := by decide
  rw [hs, List.chain'_cons, List.chain'_cons] at hmono
  exact absurd hmono.2.1 (by decide)

/-- C2 amended: within one generation attempt every assigned progress value is
an integer in [0, 100], and across consecutive state updates progress never
decreases, except that entering a failed state forces progress to 0; only an
explicit reset or a failure may decrease it. -/
theorem progress_bounded_monotone_except_failure (prompt : String) (genFetch : GenFetch)
    (resp : Nat → FetchOutcome) (s : AppState) :
    List.Chain' progressStep (generateVideo prompt genFetch resp s).statesSet ∧
    ∀ v ∈ (generateVideo prompt genFetch resp s).statesSet, v.progress ≤ 100 := by
  by_cases h1 : jsTrim prompt = ""
  · simp [generateVideo, h1]
  · by_cases h2 : 1500 < prompt.length
    · simp [generateVideo, h1, h2]
    · cases genFetch with
      | throws m =>
          refine ⟨?_, ?_⟩
          · simp only [generateVideo, if_neg h1, if_neg h2]
            rw [List.chain'_cons]
            exact ⟨Or.inr ⟨rfl, rfl⟩, List.chain'_singleton _⟩
          · intro v hv
            simp only [generateVideo, if_neg h1, if_neg h2] at hv
            rw [List.mem_cons, List.mem_singleton] at hv
            rcases hv with rfl | rfl <;> simp [failedStatus]
      | success r =>
          by_cases h3 : (!r.ok || !truthy (r.data.bind GenData.video_id)) = true
          · refine ⟨?_, ?_⟩
            · simp only [generateVideo, if_neg h1, if_neg h2, if_pos h3]
              rw [List.chain'_cons]
              exact ⟨Or.inr ⟨rfl, rfl⟩, List.chain'_singleton _⟩
            · intro v hv
              simp only [generateVideo, if_neg h1, if_neg h2, if_pos h3] at hv
              rw [List.mem_cons, List.mem_singleton] at hv
              rcases hv with rfl | rfl <;> simp [failedStatus]
          · refine ⟨?_, ?_⟩
            · simp only [generateVideo, if_neg h1, if_neg h2, if_neg h3]
              rw [List.chain'_cons]
              exact ⟨Or.inl (by norm_num),
                (pollVideoStatus_chain_entry resp _ _ _ (by norm_num)).1⟩
            · intro v hv
              simp only [generateVideo, if_neg h1, if_neg h2, if_neg h3] at hv
              rw [List.mem_cons] at hv
              rcases hv with rfl | hv
              · norm_num
              · rw [List.mem_cons] at hv
                rcases hv with rfl | hv
                · norm_num
                · exact (pollVideoStatus_chain_entry resp _ _ _ (by norm_num)).2 v hv

/-- Witness for the amended C2: the processing state assigned in a concrete
run has progress within [0, 100]. -/
theorem progress_bounded_monotone_except_failure_witness :
    (⟨Status.processing, some "vid1", none, 30, none⟩ : VideoStatus).progress ≤ 100 :=
  (progress_bounded_monotone_except_failure "hello"
      (GenFetch.success
        { ok := true, data := some { video_id := some "vid1" }, error := none })
      (fun _ => failResp (some "boom")) initialState).2
    ⟨Status.processing, some "vid1", none, 30, none⟩ (by decide)

/-- C3 as stated fails on the code: in the concrete run where submission
succeeded — the payload was submitted and the processing state carrying the
job id was assigned — and polling then reported a remote failure, the final
failed state carries no job handle. -/
theorem handle_presence_counterexample :
    failedPollRun.submitted.isSome = true ∧
    (⟨Status.processing, some "vid1", none, 30, none⟩ : VideoStatus) ∈
      failedPollRun.statesSet ∧
    failedPollRun.state.videoStatus.status = Status.failed ∧
    failedPollRun.state.videoStatus.videoId = none := by
  decide

/-- C3 amended: in every state assigned during a generation run the job handle
is present exactly when the status is processing or completed; it is absent in
the generating state and in every failed state, including failures reached
after a successful submission. -/
theorem handle_iff_processing_or_completed (prompt : String) (genFetch : GenFetch)
    (resp : Nat → FetchOutcome) (s : AppState) (v : VideoStatus)
    (hv : v ∈ (generateVideo prompt genFetch resp s).statesSet) :
    v.videoId.isSome = true ↔
      (v.status = Status.processing ∨ v.status = Status.completed) := by
  by_cases h1 : jsTrim prompt = ""
  · simp [generateVideo, h1] at hv
  · by_cases h2 : 1500 < prompt.length
    · simp [generateVideo, h1, h2] at hv
    · cases genFetch with
      | throws m =>
          simp only [generateVideo, if_neg h1, if_neg h2] at hv
          rw [List.mem_cons, List.mem_singleton] at hv
          rcases hv with rfl | rfl <;> simp [failedStatus]
      | success r =>
          by_cases h3 : (!r.ok || !truthy (r.data.bind GenData.video_id)) = true
          · simp only [generateVideo, if_neg h1, if_neg h2, if_pos h3] at hv
            rw [List.mem_cons, List.mem_singleton] at hv
            rcases hv with rfl | rfl <;> simp [failedStatus]
          · simp only [generateVideo, if_neg h1, if_neg h2, if_neg h3] at hv
            rw [List.mem_cons] at hv
            rcases hv with rfl | hv
            · simp
            · rw [List.mem_cons] at hv
              rcases hv with rfl | hv
              · simp
              · exact pollVideoStatus_handle_entry resp _ _ _
                  (by simp [handleInv]) v hv

/-- Witness for the amended C3: the failed state reached after a successful
submission in a concrete run has no handle and is neither processing nor
completed. -/
theorem handle_iff_processing_or_completed_witness :
    (⟨Status.failed, none, none, 0, some "boom"⟩ : VideoStatus).videoId.isSome = true ↔
      ((⟨Status.failed, none, none, 0, some "boom"⟩ : VideoStatus).status =
          Status.processing ∨
       (⟨Status.failed, none, none, 0, some "boom"⟩ : VideoStatus).status =
          Status.completed) :=
  handle_iff_processing_or_completed "hello"
    (GenFetch.success
      { ok := true, data := some { video_id := some "vid1" }, error := none })
    (fun _ => failResp (some "boom")) initialState
    ⟨Status.failed, none, none, 0, some "boom"⟩ (by decide)

end VideoGenAi
